import Mathlib

/-! Verification of the MCP connection-lifecycle manager
    (src/mcp_agent/mcp/mcp_connection_manager.py).

    Modelling conventions, chosen to follow the Python source line by line:
    * Python dictionaries (the registry, `running_servers`) are association
      lists; reachable dictionaries have unique keys, and lookup returns the
      first binding.
    * Mutable `ServerConnection` objects are heap cells addressed by numeric
      ids (`running_servers` maps a name to a cell id, the scheduled lifecycle
      tasks reference cells by id), so aliasing between the manager table and
      the task group is represented faithfully.
    * `anyio.Event` is a Bool (`set` writes `true`; the event is one-shot).
    * The outcome of each external suspension point of the lifecycle task
      (transport acquisition, entering the session context, the protocol
      handshake `session.initialize()`) is fixed by an explicit environment
      `LifecycleEnv`; the init hook is a function supplied by the caller or
      registry, exactly as in the source.
    * Every manager operation runs its read-modify-write sequence under
      `self._lock` in the source, so each operation is one atomic state
      transformer; `tg.start_soon` only records the scheduled task (launching
      is asynchronous), and `runLifecycle` runs a previously scheduled task,
      which is how an interleaving is chosen. -/

def alistLookup {κ β : Type} [DecidableEq κ] (l : List (κ × β)) (k : κ) : Option β :=
  match l with
  | [] => none
  | (k2, v) :: rest => if k = k2 then some v else alistLookup rest k

def alistSet {κ β : Type} [DecidableEq κ] (l : List (κ × β)) (k : κ) (v : β) :
    List (κ × β) :=
  match l with
  | [] => []
  | (k2, v2) :: rest => if k = k2 then (k2, v) :: rest else (k2, v2) :: alistSet rest k v

def alistRemove {κ β : Type} [DecidableEq κ] (l : List (κ × β)) (k : κ) : List (κ × β) :=
  match l with
  | [] => []
  | (k2, v2) :: rest => if k = k2 then rest else (k2, v2) :: alistRemove rest k

/-- Model of `datetime.timedelta(seconds=...)`. -/
structure Timedelta where
  seconds : Int
deriving Repr, DecidableEq

/-- Model of `mcp_agent.config.MCPServerSettings`: the fields read by the
    connection manager (`transport`, `command`, `args`, `env`, `url`,
    `read_timeout_seconds`, `auth`). -/
structure MCPServerSettings where
  transport : String
  command : Option String
  args : List String
  env : Option (List (String × String))
  url : Option String
  read_timeout_seconds : Option Int
  auth : Option String
deriving Repr, DecidableEq

/-- Model of an `mcp.ClientSession` object as the manager observes it: an
    identity, whether the object's class has a `server_config` attribute
    (the `hasattr` check in `create_session`), and that attribute's value. -/
structure ClientSession where
  sessionId : Nat
  hasServerConfigAttr : Bool
  server_config : Option MCPServerSettings
deriving Repr, DecidableEq

/-- Python exceptions raised by (or through) the connection manager code. -/
inductive PyError where
  | attributeError
  | notEnteredRuntimeError
  | configNotFound (name : String)
  | unsupportedTransport (transport : String)
  | initializationFailed (name : String)
  | exc (code : Nat)
deriving Repr, DecidableEq

/-- Outcomes of the external suspension points of one lifecycle-task run:
    what the stdio / sse transport factory yields (a pair of stream ids, or
    an exception), whether entering the session's async context succeeds, and
    whether the protocol handshake `session.initialize()` succeeds. -/
structure LifecycleEnv where
  stdioTransport : Except PyError (Nat × Nat)
  sseTransport : Except PyError (Nat × Nat)
  sessionEnter : Except PyError Unit
  handshakeResult : Except PyError Unit

/-- Observable actions of a lifecycle-task run, in execution order. -/
inductive TaskAction where
  | handshake
  | hookInvoked (sess : ClientSession) (auth : Option String)
  | setInitializedEvent
  | awaitShutdown
deriving Repr, DecidableEq

/-- The `client_session_factory` callable: `(read_stream, send_stream,
    read_timeout) -> ClientSession`. Streams are modelled by their ids. -/
abbrev SessionFactory := Nat → Nat → Option Timedelta → ClientSession

/-- The `InitHookCallable`: `(session, auth) -> None`, possibly raising. -/
abbrev InitHook := ClientSession → Option String → Except PyError Unit

/-- State of one `ServerConnection` object (field names as in the source). -/
structure ServerConnection where
  server_name : String
  server_config : MCPServerSettings
  session : Option ClientSession
  _client_session_factory : SessionFactory
  _init_hook : Option InitHook
  _transport_context_factory : LifecycleEnv → Except PyError (Nat × Nat)
  _initialized_event : Bool
  _shutdown_event : Bool

/-- `ServerConnection.__init__`: `session` starts unset and both events start
    unset. -/
def ServerConnection.new (server_name : String) (server_config : MCPServerSettings)
    (transport_context_factory : LifecycleEnv → Except PyError (Nat × Nat))
    (client_session_factory : SessionFactory) (init_hook : Option InitHook) :
    ServerConnection :=
  { server_name := server_name
    server_config := server_config
    session := none
    _client_session_factory := client_session_factory
    _init_hook := init_hook
    _transport_context_factory := transport_context_factory
    _initialized_event := false
    _shutdown_event := false }

/-- `ServerConnection.request_shutdown`: sets the shutdown event. -/
def ServerConnection.request_shutdown (conn : ServerConnection) : ServerConnection :=
  { conn with _shutdown_event := true }

/-- `ServerConnection.create_session`: computes the read timeout from the
    config (`timedelta(seconds=x) if x else None`, i.e. `None` when the config
    value is absent or zero), calls the session factory, sets the session's
    `server_config` attribute when the session has one, stores the session on
    the connection and returns it. -/
def ServerConnection.create_session (conn : ServerConnection)
    (read_stream send_stream : Nat) : ClientSession × ServerConnection :=
  let read_timeout : Option Timedelta :=
    match conn.server_config.read_timeout_seconds with
    | none => none
    | some secs => if secs = 0 then none else some { seconds := secs }
  let session := conn._client_session_factory read_stream send_stream read_timeout
  let session2 :=
    if session.hasServerConfigAttr then
      { session with server_config := some conn.server_config }
    else session
  (session2, { conn with session := some session2 })

/-- `ServerConnection.initialize_session`: awaits `session.initialize()`
    (raising `AttributeError` if `session` is still `None`), then runs the
    init hook if one is configured (passing the session and
    `server_config.auth`), and only then sets the initialized event.  The
    result is (outcome, updated connection, trace of observable actions). -/
def ServerConnection.initialize_session (conn : ServerConnection) (env : LifecycleEnv) :
    Except PyError Unit × ServerConnection × List TaskAction :=
  match conn.session with
  | none => (Except.error PyError.attributeError, conn, [])
  | some sess =>
    match env.handshakeResult with
    | Except.error e => (Except.error e, conn, [TaskAction.handshake])
    | Except.ok _ =>
      match conn._init_hook with
      | some hook =>
        match hook sess conn.server_config.auth with
        | Except.error e =>
          (Except.error e, conn,
           [TaskAction.handshake, TaskAction.hookInvoked sess conn.server_config.auth])
        | Except.ok _ =>
          (Except.ok (), { conn with _initialized_event := true },
           [TaskAction.handshake, TaskAction.hookInvoked sess conn.server_config.auth,
            TaskAction.setInitializedEvent])
      | none =>
        (Except.ok (), { conn with _initialized_event := true },
         [TaskAction.handshake, TaskAction.setInitializedEvent])

/-- The `transport_context_factory` closure built inside `launch_server`:
    dispatch on `config.transport`, raising `ValueError` on an unsupported
    transport kind; the transports' own outcomes come from the environment. -/
def transport_context_factory (config : MCPServerSettings) (env : LifecycleEnv) :
    Except PyError (Nat × Nat) :=
  if config.transport = "stdio" then env.stdioTransport
  else if config.transport = "sse" then env.sseTransport
  else Except.error (PyError.unsupportedTransport config.transport)

/-- The `try:` body of `_server_lifecycle_task`: acquire the transport,
    create the session, enter the session context, run
    `initialize_session`, then block on the shutdown request. -/
def _server_lifecycle_body (conn : ServerConnection) (env : LifecycleEnv) :
    Except PyError Unit × ServerConnection × List TaskAction :=
  match conn._transport_context_factory env with
  | Except.error e => (Except.error e, conn, [])
  | Except.ok streams =>
    match env.sessionEnter with
    | Except.error e => (Except.error e, (conn.create_session streams.1 streams.2).2, [])
    | Except.ok _ =>
      match (conn.create_session streams.1 streams.2).2.initialize_session env with
      | (Except.error e, conn2, tr) => (Except.error e, conn2, tr)
      | (Except.ok _, conn2, tr) => (Except.ok (), conn2, tr ++ [TaskAction.awaitShutdown])

/-- `_server_lifecycle_task`: run the body; on any exception, set the
    initialized event (so `get_server` won't hang) and re-raise. -/
def _server_lifecycle_task (conn : ServerConnection) (env : LifecycleEnv) :
    Except PyError Unit × ServerConnection × List TaskAction :=
  match _server_lifecycle_body conn env with
  | (Except.error e, c, tr) =>
    (Except.error e, { c with _initialized_event := true },
     tr ++ [TaskAction.setInitializedEvent])
  | (Except.ok _, c, tr) => (Except.ok (), c, tr)

/-- The shared anyio task group: the list of scheduled lifecycle tasks,
    recorded as (connection cell id, server name at scheduling time). -/
structure TaskGroup where
  tasks : List (Nat × String)
deriving Repr, DecidableEq

/-- Python truthiness of a task-group object: objects are truthy. -/
def TaskGroup.pyTruthy : TaskGroup → Bool := fun _ => true

/-- The `ServerRegistry` collaborator: `registry` (name to config) and
    `init_hooks` (name to hook). -/
structure ServerRegistry where
  registry : List (String × MCPServerSettings)
  init_hooks : List (String × InitHook)

/-- State of one `MCPConnectionManager` together with the heap of
    `ServerConnection` objects it references.  `_tg = none` models the `_tg`
    attribute not existing yet (it is only assigned in `__aenter__`). -/
structure ManagerState where
  server_registry : ServerRegistry
  running_servers : List (String × Nat)
  heap : List (Nat × ServerConnection)
  nextId : Nat
  _tg : Option TaskGroup

/-- `MCPConnectionManager.__init__`: empty table; note that no `_tg`
    attribute is assigned here. -/
def MCPConnectionManager.mk_init (server_registry : ServerRegistry) : ManagerState :=
  { server_registry := server_registry, running_servers := [], heap := [],
    nextId := 0, _tg := none }

/-- `MCPConnectionManager.__aenter__`: obtain or create the shared task group
    and store it in `_tg`. -/
def MCPConnectionManager.aenter (s : ManagerState) : ManagerState :=
  match s._tg with
  | some _ => s
  | none => { s with _tg := some { tasks := [] } }

/-- `MCPConnectionManager.launch_server`: guard on `self._tg` (accessing the
    attribute before `__aenter__` raises `AttributeError`; the `if not
    self._tg` guard would raise the "must be used inside an async context"
    `RuntimeError`, but a real task group object is always truthy), look the
    name up in the registry (raising `ValueError` if absent), construct a new
    `ServerConnection`, then under the lock: return the existing connection
    for the name if there is one, otherwise insert the new connection and
    schedule its lifecycle task. -/
def MCPConnectionManager.launch_server (s : ManagerState) (server_name : String)
    (client_session_factory : SessionFactory) (init_hook : Option InitHook) :
    Except PyError (Nat × ManagerState) :=
  match s._tg with
  | none => Except.error PyError.attributeError
  | some tgv =>
    if tgv.pyTruthy = false then Except.error PyError.notEnteredRuntimeError
    else
      match alistLookup s.server_registry.registry server_name with
      | none => Except.error (PyError.configNotFound server_name)
      | some config =>
        let hook : Option InitHook :=
          match init_hook with
          | some h => some h
          | none => alistLookup s.server_registry.init_hooks server_name
        let server_conn : ServerConnection :=
          ServerConnection.new server_name config (transport_context_factory config)
            client_session_factory hook
        match alistLookup s.running_servers server_name with
        | some cid => Except.ok (cid, s)
        | none =>
          Except.ok (s.nextId,
            { s with
              heap := s.heap ++ [(s.nextId, server_conn)]
              nextId := s.nextId + 1
              running_servers := s.running_servers ++ [(server_name, s.nextId)]
              _tg := some { tgv with tasks := tgv.tasks ++ [(s.nextId, server_name)] } })

/-- Run a scheduled lifecycle task to the point where `get_server`'s wait on
    the initialized event returns (the task always sets the event, on success
    or failure); the task mutates its connection cell in place. -/
def runLifecycle (s : ManagerState) (cid : Nat) (env : LifecycleEnv) : ManagerState :=
  match alistLookup s.heap cid with
  | none => s
  | some conn =>
    { s with heap := alistSet s.heap cid (_server_lifecycle_task conn env).2.1 }

/-- `MCPConnectionManager.get_server`: under the lock, return the connection
    for the name if present (without waiting on its initialized event);
    otherwise launch it, wait for the initialized event (modelled by running
    the scheduled lifecycle task), and raise `RuntimeError` ("Failed to
    initialize server") when the session is still unset afterwards. -/
def MCPConnectionManager.get_server (s : ManagerState) (server_name : String)
    (client_session_factory : SessionFactory) (init_hook : Option InitHook)
    (env : LifecycleEnv) : Except PyError (Nat × ManagerState) :=
  match alistLookup s.running_servers server_name with
  | some cid => Except.ok (cid, s)
  | none =>
    match MCPConnectionManager.launch_server s server_name client_session_factory
        init_hook with
    | Except.error e => Except.error e
    | Except.ok (cid, s1) =>
      match alistLookup (runLifecycle s1 cid env).heap cid with
      | none => Except.error (PyError.initializationFailed server_name)
      | some conn =>
        match conn.session with
        | none => Except.error (PyError.initializationFailed server_name)
        | some _ => Except.ok (cid, runLifecycle s1 cid env)

/-- Set the shutdown event of the connection in heap cell `cid`. -/
def heapRequestShutdown (h : List (Nat × ServerConnection)) (cid : Nat) :
    List (Nat × ServerConnection) :=
  match alistLookup h cid with
  | none => h
  | some c => alistSet h cid c.request_shutdown

/-- `MCPConnectionManager.disconnect_server`: under the lock, pop the name
    from the table; if a connection was there, request its shutdown; no-op
    otherwise. -/
def MCPConnectionManager.disconnect_server (s : ManagerState) (server_name : String) :
    ManagerState :=
  match alistLookup s.running_servers server_name with
  | none => s
  | some cid =>
    { s with running_servers := alistRemove s.running_servers server_name
             heap := heapRequestShutdown s.heap cid }

/-- `MCPConnectionManager.disconnect_all`: under the lock, return early if the
    table is empty (`if not self.running_servers`), otherwise request shutdown
    on every tracked connection and clear the table. -/
def MCPConnectionManager.disconnect_all (s : ManagerState) : ManagerState :=
  if s.running_servers.isEmpty then s
  else
    { s with
      heap := s.running_servers.foldl (fun h p => heapRequestShutdown h p.2) s.heap
      running_servers := [] }

/-- The lifecycle tasks scheduled for a given server name. -/
def tasksFor (s : ManagerState) (server_name : String) : List Nat :=
  match s._tg with
  | none => []
  | some tgv => (tgv.tasks.filter (fun p => decide (p.2 = server_name))).map Prod.fst

/-- What `create_session` produces when the factory is handed a given read
    timeout: the factory's session, with `server_config` attached when the
    session object has that attribute, both stored and returned. -/
def sessionResult (conn : ServerConnection) (read_stream send_stream : Nat)
    (read_timeout : Option Timedelta) : ClientSession × ServerConnection :=
  let session := conn._client_session_factory read_stream send_stream read_timeout
  let session2 :=
    if session.hasServerConfigAttr then
      { session with server_config := some conn.server_config }
    else session
  (session2, { conn with session := some session2 })

/-- Concrete stdio configuration used by the evaluation lemmas below. -/
def stdioConfigW : MCPServerSettings :=
  { transport := "stdio", command := some "server-cmd", args := [], env := none,
    url := none, read_timeout_seconds := none, auth := none }

/-- Concrete registry with one server named alpha and no init hooks. -/
def regW : ServerRegistry := { registry := [("alpha", stdioConfigW)], init_hooks := [] }

/-- Concrete session factory. -/
def csfW : SessionFactory := fun _ _ _ =>
  { sessionId := 1, hasServerConfigAttr := false, server_config := none }

/-- Environment in which every lifecycle step succeeds. -/
def envOkW : LifecycleEnv :=
  { stdioTransport := Except.ok (10, 11), sseTransport := Except.ok (20, 21),
    sessionEnter := Except.ok (), handshakeResult := Except.ok () }

/-- Environment in which the stdio transport acquisition raises. -/
def envTransportFailW : LifecycleEnv :=
  { stdioTransport := Except.error (PyError.exc 7), sseTransport := Except.ok (20, 21),
    sessionEnter := Except.ok (), handshakeResult := Except.ok () }

/-- A manager over `regW` that has been entered. -/
def sEnteredW : ManagerState := MCPConnectionManager.aenter (MCPConnectionManager.mk_init regW)

/-- The connection object `launch_server` builds for alpha. -/
def connPendingW : ServerConnection :=
  ServerConnection.new "alpha" stdioConfigW (transport_context_factory stdioConfigW) csfW none

/-- Manager state right after `launch_server("alpha", ...)` returned, before
    the scheduled lifecycle task has run at all. -/
def sPendingW : ManagerState :=
  match MCPConnectionManager.launch_server sEnteredW "alpha" csfW none with
  | Except.ok p => p.2
  | Except.error _ => sEnteredW

/-- Manager state after a successful `get_server("alpha", ...)` launch. -/
def sAfterW : ManagerState :=
  match MCPConnectionManager.get_server sEnteredW "alpha" csfW none envOkW with
  | Except.ok p => p.2
  | Except.error _ => sEnteredW

/-- A hook that always raises. -/
def hookFailW : InitHook := fun _ _ => Except.error (PyError.exc 9)

/-- A hook that always succeeds. -/
def hookOkW : InitHook := fun _ _ => Except.ok ()

/-- The session `csfW` produces. -/
def sessW : ClientSession := { sessionId := 1, hasServerConfigAttr := false, server_config := none }

/-- A connection whose session is up and whose init hook always raises. -/
def connHookFailW : ServerConnection :=
  { connPendingW with session := some sessW, _init_hook := some hookFailW }

/-- A connection whose session is up and whose init hook succeeds. -/
def connHookOkW : ServerConnection :=
  { connPendingW with session := some sessW, _init_hook := some hookOkW }

/-- A fresh connection whose init hook always raises (for a full lifecycle
    run). -/
def connHookLifecycleW : ServerConnection :=
  { connPendingW with _init_hook := some hookFailW }

/-- A connection whose config sets a five-second read timeout. -/
def connTimeoutW : ServerConnection :=
  { connPendingW with
    server_config := { stdioConfigW with read_timeout_seconds := some 5 } }

theorem alistLookup_append_right {κ β : Type} [DecidableEq κ] (l : List (κ × β)) (k : κ)
    (v : β) (h : alistLookup l k = none) : alistLookup (l ++ [(k, v)]) k = some v := by
  induction l with
  | nil => simp [alistLookup]
  | cons p rest ih =>
    obtain ⟨k2, v2⟩ := p
    by_cases hk : k = k2
    · simp [alistLookup, hk] at h
    · simp only [alistLookup, hk, if_false, List.cons_append] at h ⊢
      exact ih h

theorem alistLookup_alistSet_self {κ β : Type} [DecidableEq κ] (l : List (κ × β)) (k : κ)
    (v : β) (h : (alistLookup l k).isSome = true) :
    alistLookup (alistSet l k v) k = some v := by
  induction l with
  | nil => simp [alistLookup] at h
  | cons p rest ih =>
    obtain ⟨k2, v2⟩ := p
    by_cases hk : k = k2
    · simp [alistSet, alistLookup, hk]
    · simp only [alistSet, alistLookup, hk, if_false] at h ⊢
      exact ih h

theorem alistLookup_alistSet_ne {κ β : Type} [DecidableEq κ] (l : List (κ × β))
    (k k2 : κ) (v : β) (h : k2 ≠ k) :
    alistLookup (alistSet l k v) k2 = alistLookup l k2 := by
  induction l with
  | nil => simp [alistSet]
  | cons p rest ih =>
    obtain ⟨k3, v3⟩ := p
    by_cases hk : k = k3
    · subst hk
      simp only [alistSet, if_pos rfl]
      simp [alistLookup, h]
    · simp only [alistSet, if_neg hk, alistLookup]
      by_cases hk2 : k2 = k3
      · simp [hk2]
      · simp [hk2, ih]

/-- C8: the claim says a launch made before the manager's scope is established
    fails with NotEntered; on a freshly constructed manager the code instead
    raises `AttributeError`, because `__init__` never assigns `self._tg` and
    the guard line `if not self._tg` itself fails before it can raise the
    intended "must be used inside an async context" `RuntimeError`. -/
theorem C8_launch_before_enter_raises_attribute_error :
    MCPConnectionManager.launch_server (MCPConnectionManager.mk_init regW) "alpha" csfW
        none =
      Except.error PyError.attributeError ∧
    decide (PyError.attributeError = PyError.notEnteredRuntimeError) = false := by
  exact ⟨rfl, by decide⟩

/-- C7: for a name absent from the registry, `launch_server` on an entered
    manager raises `ValueError` (ConfigNotFound) before touching the table or
    the task group (the raise precedes the critical section, so the error
    result carries no state change), and `get_server` on a name with no
    existing connection propagates the same error. -/
theorem C7_unknown_name_config_not_found (s : ManagerState) (server_name : String)
    (csf : SessionFactory) (hk : Option InitHook) (env : LifecycleEnv) (tgv : TaskGroup)
    (htg : s._tg = some tgv)
    (hreg : alistLookup s.server_registry.registry server_name = none) :
    MCPConnectionManager.launch_server s server_name csf hk =
      Except.error (PyError.configNotFound server_name) ∧
    (alistLookup s.running_servers server_name = none →
      MCPConnectionManager.get_server s server_name csf hk env =
        Except.error (PyError.configNotFound server_name)) := by
  have hl : MCPConnectionManager.launch_server s server_name csf hk =
      Except.error (PyError.configNotFound server_name) := by
    unfold MCPConnectionManager.launch_server
    rw [htg]
    simp [TaskGroup.pyTruthy, hreg]
  refine ⟨hl, fun habs => ?_⟩
  unfold MCPConnectionManager.get_server
  simp [habs, hl]

/-- C7 witness: with registry containing only alpha, requesting beta fails
    with ConfigNotFound through both entry points. -/
theorem C7_unknown_name_config_not_found_witness :
    MCPConnectionManager.launch_server sEnteredW "beta" csfW none =
      Except.error (PyError.configNotFound "beta") ∧
    MCPConnectionManager.get_server sEnteredW "beta" csfW none envOkW =
      Except.error (PyError.configNotFound "beta") := by
  have h := C7_unknown_name_config_not_found sEnteredW "beta" csfW none envOkW
    { tasks := [] } rfl rfl
  exact ⟨h.1, h.2 rfl⟩

/-- C10: `create_session` hands the session factory no read timeout when the
    config's `read_timeout_seconds` is unset or zero and a timedelta of `t`
    seconds when it is a positive `t`, and in all cases stores the constructed
    session in the connection's `session` field and returns it. -/
theorem C10_create_session_read_timeout (conn : ServerConnection)
    (read_stream send_stream : Nat) :
    ((conn.create_session read_stream send_stream).2).session =
      some (conn.create_session read_stream send_stream).1 ∧
    ((conn.server_config.read_timeout_seconds = none ∨
        conn.server_config.read_timeout_seconds = some 0) →
      conn.create_session read_stream send_stream =
        sessionResult conn read_stream send_stream none) ∧
    (∀ t : Int, 0 < t → conn.server_config.read_timeout_seconds = some t →
      conn.create_session read_stream send_stream =
        sessionResult conn read_stream send_stream (some { seconds := t })) := by
  refine ⟨rfl, ?_, ?_⟩
  · rintro (hrts | hrts) <;>
      simp [ServerConnection.create_session, sessionResult, hrts]
  · intro t ht hrts
    simp [ServerConnection.create_session, sessionResult, hrts, ht.ne']

/-- C10 witness: a five-second configured timeout yields a five-second
    timedelta; an unset timeout yields no timeout. -/
theorem C10_create_session_read_timeout_witness :
    (0 : Int) < 5 ∧
    connTimeoutW.create_session 1 2 = sessionResult connTimeoutW 1 2 (some { seconds := 5 }) ∧
    connPendingW.create_session 1 2 = sessionResult connPendingW 1 2 none := by
  refine ⟨by decide, ?_, ?_⟩
  · exact (C10_create_session_read_timeout connTimeoutW 1 2).2.2 5 (by decide) rfl
  · exact (C10_create_session_read_timeout connPendingW 1 2).2.1 (Or.inl rfl)

theorem initialize_session_ok_event (conn : ServerConnection) (env : LifecycleEnv)
    (u : Unit) (c : ServerConnection) (tr : List TaskAction)
    (h : conn.initialize_session env = (Except.ok u, c, tr)) :
    c._initialized_event = true := by
  unfold ServerConnection.initialize_session at h
  repeat' split at h
  all_goals try simp_all
  all_goals (obtain ⟨hc, -⟩ := h; subst hc; rfl)

theorem body_ok_event (conn : ServerConnection) (env : LifecycleEnv) (u : Unit)
    (c : ServerConnection) (tr : List TaskAction)
    (h : _server_lifecycle_body conn env = (Except.ok u, c, tr)) :
    c._initialized_event = true := by
  unfold _server_lifecycle_body at h
  split at h
  · simp_all
  · split at h
    · simp_all
    · split at h
      · simp_all
      · rename_i u2 conn2 tr2 heq
        simp only [Prod.mk.injEq] at h
        obtain ⟨-, hc, -⟩ := h
        subst hc
        exact initialize_session_ok_event _ env _ _ _ heq

theorem lifecycle_task_event (conn : ServerConnection) (env : LifecycleEnv) :
    ((_server_lifecycle_task conn env).2.1)._initialized_event = true := by
  unfold _server_lifecycle_task
  rcases hb : _server_lifecycle_body conn env with ⟨r, c, tr⟩
  rcases r with e | u
  · simp
  · exact body_ok_event conn env u c tr hb

/-- C2: on any exception during transport acquisition, session construction or
    context entry, handshake, or the init hook, the lifecycle task still sets
    the connection's initialized event before terminating and re-raises the
    same exception to the owning scope; and every run (success or failure)
    terminates with the initialized event set, so every waiter on the event is
    released. -/
theorem C2_lifecycle_failure_marks_ready (conn : ServerConnection) (env : LifecycleEnv) :
    ((_server_lifecycle_task conn env).2.1)._initialized_event = true ∧
    (∀ e c tr, _server_lifecycle_body conn env = (Except.error e, c, tr) →
      _server_lifecycle_task conn env =
        (Except.error e, { c with _initialized_event := true },
         tr ++ [TaskAction.setInitializedEvent])) := by
  refine ⟨lifecycle_task_event conn env, ?_⟩
  intro e c tr hbody
  unfold _server_lifecycle_task
  rw [hbody]

/-- C2 witness: with a transport that raises, the task ends with the
    initialized event set and re-raises the transport exception. -/
theorem C2_lifecycle_failure_marks_ready_witness :
    ((_server_lifecycle_task connPendingW envTransportFailW).2.1)._initialized_event =
      true ∧
    _server_lifecycle_task connPendingW envTransportFailW =
      (Except.error (PyError.exc 7), { connPendingW with _initialized_event := true },
       [TaskAction.setInitializedEvent]) := by
  have h := C2_lifecycle_failure_marks_ready connPendingW envTransportFailW
  exact ⟨h.1, h.2 (PyError.exc 7) connPendingW [] rfl⟩

/-- C9: with a configured init hook and the session in place, a successful
    handshake is followed by the hook invocation (with the session and the
    configured auth material) strictly after the handshake and strictly before
    the initialized event is set, as the action trace shows; a hook exception
    leaves the connection (hence its initialized event) unchanged on this path
    and propagates, and through the lifecycle task it surfaces as the launch
    failure (with the event then set by the failure handler). -/
theorem C9_init_hook_ordering (conn : ServerConnection) (env : LifecycleEnv)
    (sess : ClientSession) (hook : InitHook)
    (hs : conn.session = some sess) (hh : conn._init_hook = some hook)
    (hinit : env.handshakeResult = Except.ok ()) :
    (hook sess conn.server_config.auth = Except.ok () →
      conn.initialize_session env =
        (Except.ok (), { conn with _initialized_event := true },
         [TaskAction.handshake, TaskAction.hookInvoked sess conn.server_config.auth,
          TaskAction.setInitializedEvent])) ∧
    (∀ e, hook sess conn.server_config.auth = Except.error e →
      conn.initialize_session env =
        (Except.error e, conn,
         [TaskAction.handshake, TaskAction.hookInvoked sess conn.server_config.auth])) ∧
    (∀ conn0 e streams, (∀ s2 a, hook s2 a = Except.error e) →
      conn0._init_hook = some hook →
      conn0._transport_context_factory env = Except.ok streams →
      env.sessionEnter = Except.ok () →
      (_server_lifecycle_task conn0 env).1 = Except.error e ∧
      ((_server_lifecycle_task conn0 env).2.1)._initialized_event = true) := by
  refine ⟨?_, ?_, ?_⟩
  · intro hok
    simp [ServerConnection.initialize_session, hs, hinit, hh, hok]
  · intro e he
    simp [ServerConnection.initialize_session, hs, hinit, hh, he]
  · intro conn0 e streams hAll hh2 htr henter
    refine ⟨?_, lifecycle_task_event conn0 env⟩
    unfold _server_lifecycle_task _server_lifecycle_body
    rw [htr, henter]
    simp [ServerConnection.create_session, ServerConnection.initialize_session,
      hinit, hh2, hAll]

/-- C9 witness: concrete hook runs between the handshake and the event
    (success case), a raising hook propagates without setting the event in
    `initialize_session`, and a raising hook makes the whole lifecycle run
    fail with that exception. -/
theorem C9_init_hook_ordering_witness :
    connHookOkW.initialize_session envOkW =
      (Except.ok (), { connHookOkW with _initialized_event := true },
       [TaskAction.handshake, TaskAction.hookInvoked sessW none,
        TaskAction.setInitializedEvent]) ∧
    connHookFailW.initialize_session envOkW =
      (Except.error (PyError.exc 9), connHookFailW,
       [TaskAction.handshake, TaskAction.hookInvoked sessW none]) ∧
    (_server_lifecycle_task connHookLifecycleW envOkW).1 =
      Except.error (PyError.exc 9) := by
  refine ⟨?_, ?_, ?_⟩
  · exact (C9_init_hook_ordering connHookOkW envOkW sessW hookOkW rfl rfl rfl).1 rfl
  · exact (C9_init_hook_ordering connHookFailW envOkW sessW hookFailW rfl rfl rfl).2.1
      (PyError.exc 9) rfl
  · exact ((C9_init_hook_ordering connHookFailW envOkW sessW hookFailW rfl rfl rfl).2.2
      connHookLifecycleW (PyError.exc 9) (10, 11) (fun _ _ => rfl) rfl rfl rfl).1

theorem heapRequestShutdown_lookup (h : List (Nat × ServerConnection)) (i cid : Nat)
    (c : ServerConnection) (hc : alistLookup h cid = some c) :
    ∃ c2, alistLookup (heapRequestShutdown h i) cid = some c2 ∧
      c2._shutdown_event = (c._shutdown_event || decide (i = cid)) := by
  unfold heapRequestShutdown
  rcases hi : alistLookup h i with _ | ci
  · refine ⟨c, hc, ?_⟩
    by_cases hic : i = cid
    · subst hic; rw [hi] at hc; cases hc
    · simp [hic]
  · by_cases hic : i = cid
    · subst hic
      rw [hi] at hc
      injection hc with hcc
      subst hcc
      refine ⟨ci.request_shutdown, ?_, ?_⟩
      · exact alistLookup_alistSet_self h i ci.request_shutdown (by rw [hi]; rfl)
      · simp [ServerConnection.request_shutdown]
    · refine ⟨c, ?_, ?_⟩
      · rw [alistLookup_alistSet_ne h i cid ci.request_shutdown (fun hh => hic hh.symm)]
        exact hc
      · simp [hic]

theorem fold_shutdown_lookup (l : List (String × Nat)) (h : List (Nat × ServerConnection))
    (cid : Nat) (c : ServerConnection) (hc : alistLookup h cid = some c) :
    ∃ c2, alistLookup (l.foldl (fun h2 p => heapRequestShutdown h2 p.2) h) cid = some c2 ∧
      c2._shutdown_event = (c._shutdown_event || l.any (fun p => decide (p.2 = cid))) := by
  induction l generalizing h c with
  | nil => exact ⟨c, hc, by simp⟩
  | cons p rest ih =>
    obtain ⟨c1, hc1, hs1⟩ := heapRequestShutdown_lookup h p.2 cid c hc
    obtain ⟨c2, hc2, hs2⟩ := ih (heapRequestShutdown h p.2) c1 hc1
    refine ⟨c2, ?_, ?_⟩
    · simpa [List.foldl_cons] using hc2
    · rw [hs2, hs1, List.any_cons]
      simp [Bool.or_assoc]

/-- C5: after `disconnect_all`, the manager's table is empty, and every
    connection that was tracked in the table at the start of the call has its
    shutdown event set (the signalling and the clearing happen inside the one
    critical section the operation models; nothing in the operation runs or
    waits on the lifecycle tasks themselves). -/
theorem C5_disconnect_all_clears_and_signals (s : ManagerState) :
    (MCPConnectionManager.disconnect_all s).running_servers = [] ∧
    (∀ n cid c, (n, cid) ∈ s.running_servers → alistLookup s.heap cid = some c →
      ∃ c2, alistLookup (MCPConnectionManager.disconnect_all s).heap cid = some c2 ∧
        c2._shutdown_event = true) := by
  unfold MCPConnectionManager.disconnect_all
  by_cases he : s.running_servers.isEmpty
  · rw [if_pos he]
    have hnil : s.running_servers = [] := List.isEmpty_iff.mp he
    refine ⟨hnil, ?_⟩
    intro n cid c hmem _
    rw [hnil] at hmem
    cases hmem
  · rw [if_neg he]
    refine ⟨rfl, ?_⟩
    intro n cid c hmem hc
    obtain ⟨c2, hc2, hs2⟩ := fold_shutdown_lookup s.running_servers s.heap cid c hc
    refine ⟨c2, hc2, ?_⟩
    rw [hs2]
    have hany : s.running_servers.any (fun p => decide (p.2 = cid)) = true :=
      List.any_eq_true.mpr ⟨(n, cid), hmem, by simp⟩
    rw [hany]
    simp

/-- C5 witness: a manager tracking one launched connection ends with an empty
    table and that connection's shutdown event set. -/
theorem C5_disconnect_all_clears_and_signals_witness :
    (MCPConnectionManager.disconnect_all sPendingW).running_servers = [] ∧
    ∃ c2, alistLookup (MCPConnectionManager.disconnect_all sPendingW).heap 0 = some c2 ∧
      c2._shutdown_event = true := by
  have h := C5_disconnect_all_clears_and_signals sPendingW
  exact ⟨h.1, h.2 "alpha" 0 connPendingW (by decide) rfl⟩

/-- C6: `disconnect_server` on a present name removes exactly that table entry
    and sets the shutdown event of exactly that connection object (leaving the
    registry, task group, id counter and every other heap cell unchanged), and
    on an absent name it is a pure no-op returning the state unchanged and
    raising nothing (the operation is total). -/
theorem C6_disconnect_server_removes_then_signals (s : ManagerState)
    (server_name : String) :
    (alistLookup s.running_servers server_name = none →
      MCPConnectionManager.disconnect_server s server_name = s) ∧
    (∀ cid, alistLookup s.running_servers server_name = some cid →
      (MCPConnectionManager.disconnect_server s server_name).running_servers =
        alistRemove s.running_servers server_name ∧
      (∀ c, alistLookup s.heap cid = some c →
        alistLookup (MCPConnectionManager.disconnect_server s server_name).heap cid =
          some { c with _shutdown_event := true }) ∧
      (∀ j, j ≠ cid →
        alistLookup (MCPConnectionManager.disconnect_server s server_name).heap j =
          alistLookup s.heap j) ∧
      (MCPConnectionManager.disconnect_server s server_name).server_registry =
        s.server_registry ∧
      (MCPConnectionManager.disconnect_server s server_name)._tg = s._tg ∧
      (MCPConnectionManager.disconnect_server s server_name).nextId = s.nextId) := by
  constructor
  · intro habs
    unfold MCPConnectionManager.disconnect_server
    rw [habs]
  · intro cid hsome
    have hd : MCPConnectionManager.disconnect_server s server_name =
        { s with running_servers := alistRemove s.running_servers server_name
                 heap := heapRequestShutdown s.heap cid } := by
      unfold MCPConnectionManager.disconnect_server
      rw [hsome]
    rw [hd]
    refine ⟨rfl, ?_, ?_, rfl, rfl, rfl⟩
    · intro c hc
      show alistLookup (heapRequestShutdown s.heap cid) cid = _
      unfold heapRequestShutdown
      rw [hc]
      exact alistLookup_alistSet_self s.heap cid c.request_shutdown (by rw [hc]; rfl)
    · intro j hj
      show alistLookup (heapRequestShutdown s.heap cid) j = _
      unfold heapRequestShutdown
      rcases hl : alistLookup s.heap cid with _ | c0
      · rfl
      · exact alistLookup_alistSet_ne s.heap cid j c0.request_shutdown hj

/-- C6 witness: disconnecting alpha when no connection runs is a no-op;
    disconnecting the launched alpha removes its table entry and sets its
    shutdown event. -/
theorem C6_disconnect_server_removes_then_signals_witness :
    MCPConnectionManager.disconnect_server sEnteredW "alpha" = sEnteredW ∧
    (MCPConnectionManager.disconnect_server sPendingW "alpha").running_servers =
      alistRemove sPendingW.running_servers "alpha" ∧
    alistLookup (MCPConnectionManager.disconnect_server sPendingW "alpha").heap 0 =
      some { connPendingW with _shutdown_event := true } := by
  refine ⟨(C6_disconnect_server_removes_then_signals sEnteredW "alpha").1 rfl, ?_, ?_⟩
  · exact ((C6_disconnect_server_removes_then_signals sPendingW "alpha").2 0 rfl).1
  · exact ((C6_disconnect_server_removes_then_signals sPendingW "alpha").2 0 rfl).2.1
      connPendingW rfl

/-- C1: under the table mutex, `launch_server` on a name that already has a
    connection returns exactly that connection and leaves the whole state
    (table, heap, scheduled tasks) unchanged, so no second lifecycle task is
    scheduled; on a name with no connection it inserts exactly one new,
    un-launched connection and schedules exactly one lifecycle task for the
    name, and a subsequent launch for the same name (from any caller, with any
    factory or hook) returns that same connection with the state again
    unchanged — so any serialization of concurrent launches schedules exactly
    one task per name. -/
theorem C1_launch_is_idempotent_per_name (s : ManagerState) (server_name : String)
    (csf csf2 : SessionFactory) (hk hk2 : Option InitHook) (tgv : TaskGroup)
    (config : MCPServerSettings)
    (htg : s._tg = some tgv)
    (hreg : alistLookup s.server_registry.registry server_name = some config)
    (hfresh : alistLookup s.heap s.nextId = none) :
    (∀ cid, alistLookup s.running_servers server_name = some cid →
      MCPConnectionManager.launch_server s server_name csf hk = Except.ok (cid, s)) ∧
    (alistLookup s.running_servers server_name = none →
      ∃ s2, MCPConnectionManager.launch_server s server_name csf hk =
          Except.ok (s.nextId, s2) ∧
        alistLookup s2.running_servers server_name = some s.nextId ∧
        (∃ c, alistLookup s2.heap s.nextId = some c ∧ c.server_name = server_name ∧
          c.session = none ∧ c._initialized_event = false ∧ c._shutdown_event = false) ∧
        tasksFor s2 server_name = tasksFor s server_name ++ [s.nextId] ∧
        MCPConnectionManager.launch_server s2 server_name csf2 hk2 =
          Except.ok (s.nextId, s2)) := by
  constructor
  · intro cid hcid
    unfold MCPConnectionManager.launch_server
    rw [htg]
    simp [TaskGroup.pyTruthy, hreg, hcid]
  · intro hnone
    have hl : MCPConnectionManager.launch_server s server_name csf hk =
        Except.ok (s.nextId,
          { s with
            heap := s.heap ++ [(s.nextId,
              ServerConnection.new server_name config (transport_context_factory config)
                csf (match hk with
                     | some h2 => some h2
                     | none => alistLookup s.server_registry.init_hooks server_name))]
            nextId := s.nextId + 1
            running_servers := s.running_servers ++ [(server_name, s.nextId)]
            _tg := some { tgv with tasks := tgv.tasks ++ [(s.nextId, server_name)] } }) := by
      unfold MCPConnectionManager.launch_server
      rw [htg]
      simp [TaskGroup.pyTruthy, hreg, hnone]
    refine ⟨_, hl, ?_, ?_, ?_, ?_⟩
    · exact alistLookup_append_right s.running_servers server_name s.nextId hnone
    · exact ⟨_, alistLookup_append_right s.heap s.nextId _ hfresh, rfl, rfl, rfl, rfl⟩
    · unfold tasksFor
      rw [htg]
      simp [List.filter_append]
    · unfold MCPConnectionManager.launch_server
      simp [TaskGroup.pyTruthy, hreg,
        alistLookup_append_right s.running_servers server_name s.nextId hnone]

/-- C1 witness: launching alpha twice from a fresh entered manager schedules
    exactly one task, and relaunching on the resulting state returns the very
    same connection and state. -/
theorem C1_launch_is_idempotent_per_name_witness :
    MCPConnectionManager.launch_server sPendingW "alpha" csfW none =
      Except.ok (0, sPendingW) ∧
    ∃ s2, MCPConnectionManager.launch_server sEnteredW "alpha" csfW none =
        Except.ok (0, s2) ∧
      alistLookup s2.running_servers "alpha" = some 0 ∧
      (∃ c, alistLookup s2.heap 0 = some c ∧ c.server_name = "alpha" ∧
        c.session = none ∧ c._initialized_event = false ∧ c._shutdown_event = false) ∧
      tasksFor s2 "alpha" = tasksFor sEnteredW "alpha" ++ [0] ∧
      MCPConnectionManager.launch_server s2 "alpha" csfW none = Except.ok (0, s2) := by
  constructor
  · exact (C1_launch_is_idempotent_per_name sPendingW "alpha" csfW csfW none none
      { tasks := [(0, "alpha")] } stdioConfigW rfl rfl rfl).1 0 rfl
  · exact (C1_launch_is_idempotent_per_name sEnteredW "alpha" csfW csfW none none
      { tasks := [] } stdioConfigW rfl rfl rfl).2 rfl

/-- C3: on the launching path of `get_server` (name not in the table), once
    the launched connection's initialized event has been waited on, a still
    unset `session` field makes `get_server` raise the "Failed to initialize
    server" `RuntimeError` (InitializationFailed) instead of handing the
    caller a connection with no session. -/
theorem C3_get_server_checks_session (s : ManagerState) (server_name : String)
    (csf : SessionFactory) (hk : Option InitHook) (env : LifecycleEnv)
    (habs : alistLookup s.running_servers server_name = none)
    (cid : Nat) (s1 : ManagerState)
    (hlaunch : MCPConnectionManager.launch_server s server_name csf hk =
      Except.ok (cid, s1))
    (conn2 : ServerConnection)
    (hconn : alistLookup (runLifecycle s1 cid env).heap cid = some conn2)
    (hno : conn2.session = none) :
    MCPConnectionManager.get_server s server_name csf hk env =
      Except.error (PyError.initializationFailed server_name) := by
  unfold MCPConnectionManager.get_server
  simp [habs, hlaunch, hconn, hno]

/-- C3 witness: when the transport acquisition raises, the launched
    connection's session stays unset and `get_server` fails with the
    InitializationFailed error. -/
theorem C3_get_server_checks_session_witness :
    MCPConnectionManager.get_server sEnteredW "alpha" csfW none envTransportFailW =
      Except.error (PyError.initializationFailed "alpha") := by
  exact C3_get_server_checks_session sEnteredW "alpha" csfW none envTransportFailW rfl
    0 sPendingW rfl { connPendingW with _initialized_event := true } rfl rfl

/-- C4 counterexample: the claim that every connection returned by a resolved
    `get_server` call has a settled handshake is false — on the fast path
    `get_server` returns a connection that is still launching: here alpha was
    launched (its lifecycle task is scheduled but has not run), and
    `get_server` resolves successfully with that connection while its
    initialized event is still unset and its session still absent. -/
theorem C4_fast_path_counterexample :
    MCPConnectionManager.get_server sPendingW "alpha" csfW none envOkW =
      Except.ok (0, sPendingW) ∧
    (alistLookup sPendingW.heap 0).map (fun c => c._initialized_event) = some false ∧
    (alistLookup sPendingW.heap 0).map (fun c => c.session.isSome) = some false := by
  exact ⟨rfl, rfl, rfl⟩

/-- C4 amended: the ordering guarantee holds on the launching path — whenever
    `get_server` launches the connection itself (the name had no table entry)
    and resolves successfully, the returned connection's handshake has fully
    completed or definitively failed: its initialized event is set and its
    session is present. -/
theorem C4_launch_path_fully_settled (s : ManagerState) (server_name : String)
    (csf : SessionFactory) (hk : Option InitHook) (env : LifecycleEnv)
    (habs : alistLookup s.running_servers server_name = none)
    (cid : Nat) (s2 : ManagerState)
    (hok : MCPConnectionManager.get_server s server_name csf hk env =
      Except.ok (cid, s2)) :
    ∃ conn2, alistLookup s2.heap cid = some conn2 ∧
      conn2._initialized_event = true ∧ conn2.session.isSome = true := by
  rcases hl : MCPConnectionManager.launch_server s server_name csf hk with e | p
  · have hval : MCPConnectionManager.get_server s server_name csf hk env =
        Except.error e := by
      unfold MCPConnectionManager.get_server
      simp [habs, hl]
    rw [hval] at hok
    simp at hok
  · obtain ⟨cid1, s1⟩ := p
    rcases hc0 : alistLookup s1.heap cid1 with _ | c0
    · have hrl : runLifecycle s1 cid1 env = s1 := by
        unfold runLifecycle; rw [hc0]
      have hval : MCPConnectionManager.get_server s server_name csf hk env =
          Except.error (PyError.initializationFailed server_name) := by
        unfold MCPConnectionManager.get_server
        simp [habs, hl, hrl, hc0]
      rw [hval] at hok
      simp at hok
    · have hlook : alistLookup (runLifecycle s1 cid1 env).heap cid1 =
          some (_server_lifecycle_task c0 env).2.1 := by
        unfold runLifecycle
        rw [hc0]
        exact alistLookup_alistSet_self _ _ _ (by rw [hc0]; rfl)
      rcases hsx : (_server_lifecycle_task c0 env).2.1.session with _ | sx
      · have hval : MCPConnectionManager.get_server s server_name csf hk env =
            Except.error (PyError.initializationFailed server_name) := by
          unfold MCPConnectionManager.get_server
          simp [habs, hl, hlook, hsx]
        rw [hval] at hok
        simp at hok
      · have hval : MCPConnectionManager.get_server s server_name csf hk env =
            Except.ok (cid1, runLifecycle s1 cid1 env) := by
          unfold MCPConnectionManager.get_server
          simp [habs, hl, hlook, hsx]
        rw [hval] at hok
        simp only [Except.ok.injEq, Prod.mk.injEq] at hok
        obtain ⟨h1, h2⟩ := hok
        subst h1
        subst h2
        refine ⟨(_server_lifecycle_task c0 env).2.1, hlook,
          lifecycle_task_event c0 env, ?_⟩
        rw [hsx]
        rfl

/-- C4 amended witness: a successful launch through `get_server` yields a
    connection with the initialized event set and the session present. -/
theorem C4_launch_path_fully_settled_witness :
    ∃ conn2, alistLookup sAfterW.heap 0 = some conn2 ∧
      conn2._initialized_event = true ∧ conn2.session.isSome = true := by
  exact C4_launch_path_fully_settled sEnteredW "alpha" csfW none envOkW rfl 0 sAfterW rfl
